import Mathlib

/-!
Verification of the usage-governor core of `src/app.py` (the `ask_image`
Streamlit application).  The governor owns a per-session counter state and
exposes lazy time-window resets (`reset_usage_counters`), admission control
(`check_rate_limits`), usage accounting (`update_usage_tracking`) and token
estimation (`estimate_tokens_from_text`).

The Python code is embedded shallowly: the mutable session dictionary
becomes an explicit `UsageState` record threaded through each operation,
`datetime.now()` becomes a `Clock` record carrying the three formatted
strings the code derives from it (the day key `%Y-%m-%d`, the minute key
`%Y-%m-%d %H:%M`, and the ISO timestamp), and Python integers become `Int`.
-/

/-- Embeds the `API_LIMITS` dictionary: the five fixed caps. -/
structure APILimits where
  requests_per_minute : Int
  requests_per_day : Int
  tokens_per_minute : Int
  tokens_per_day : Int
  per_request_limit : Int
deriving Repr, DecidableEq

/-- Embeds the `API_LIMITS` constant of `src/app.py` (lines 10-16). -/
def API_LIMITS : APILimits :=
  { requests_per_minute := 30
    requests_per_day := 1000
    tokens_per_minute := 30000
    tokens_per_day := 500000
    per_request_limit := 10000 }

/-- Embeds one element of the `usage_history` list: the dictionary
`{'timestamp': ..., 'tokens': ...}` appended by `update_usage_tracking`. -/
structure HistoryEntry where
  timestamp : String
  tokens : Int
deriving Repr, DecidableEq

/-- Embeds the `st.session_state.usage_tracking` dictionary: four counters,
the two stored reset keys, and the bounded usage history. -/
structure UsageState where
  daily_tokens : Int
  daily_requests : Int
  last_daily_reset : String
  minute_tokens : Int
  minute_requests : Int
  last_minute_reset : String
  usage_history : List HistoryEntry
deriving Repr, DecidableEq

/-- Embeds the observation of `datetime.now()`: the code only ever uses the
current time through these three formatted strings, so the clock is modelled
as the triple of strings it yields. -/
structure Clock where
  dayKey : String
  minuteKey : String
  isoTimestamp : String
deriving Repr, DecidableEq

/-- Embeds `init_session_state` (lines 18-34): the fresh per-session state,
all counters zero, reset keys set to "now", empty history. -/
def init_session_state (now : Clock) : UsageState :=
  { daily_tokens := 0
    daily_requests := 0
    last_daily_reset := now.dayKey
    minute_tokens := 0
    minute_requests := 0
    last_minute_reset := now.minuteKey
    usage_history := [] }

/-- Embeds `reset_usage_counters` (lines 36-53): zero the daily counters and
overwrite the stored day key when the day key of `now` differs, then do the
same independently for the minute counters. -/
def reset_usage_counters (now : Clock) (usage : UsageState) : UsageState :=
  let usage :=
    if usage.last_daily_reset ≠ now.dayKey then
      { usage with daily_tokens := 0, daily_requests := 0,
                   last_daily_reset := now.dayKey }
    else usage
  if usage.last_minute_reset ≠ now.minuteKey then
    { usage with minute_tokens := 0, minute_requests := 0,
                 last_minute_reset := now.minuteKey }
  else usage

/-- Message built by line 62 of the source for the per-minute request cap. -/
def msg_requests_per_minute : String :=
  "Rate limit exceeded: " ++ toString API_LIMITS.requests_per_minute
    ++ " requests per minute"

/-- Message built by line 66 of the source for the daily request cap. -/
def msg_requests_per_day : String :=
  "Daily limit exceeded: " ++ toString API_LIMITS.requests_per_day
    ++ " requests per day"

/-- Message built by line 70 of the source for the per-minute token cap. -/
def msg_tokens_per_minute : String :=
  "Token rate limit exceeded: " ++ toString API_LIMITS.tokens_per_minute
    ++ " tokens per minute"

/-- Message built by line 74 of the source for the daily token cap. -/
def msg_tokens_per_day : String :=
  "Daily token limit exceeded: " ++ toString API_LIMITS.tokens_per_day
    ++ " tokens per day"

/-- Message built by line 78 of the source for the absolute per-request cap. -/
def msg_request_too_large (estimated_tokens : Int) : String :=
  "Request too large: " ++ toString estimated_tokens
    ++ " tokens (max " ++ toString API_LIMITS.per_request_limit ++ ")"

/-- Embeds `check_rate_limits` (lines 55-80): perform the lazy reset, then
test the five caps in source order, returning the updated state together
with the admission flag and the message string the Python f-strings build.
The default of `estimated_tokens` mirrors the Python default argument of
500. -/
def check_rate_limits (now : Clock) (usage : UsageState)
    (estimated_tokens : Int := 500) : UsageState × Bool × String :=
  let usage := reset_usage_counters now usage
  if usage.minute_requests ≥ API_LIMITS.requests_per_minute then
    (usage, false, msg_requests_per_minute)
  else if usage.daily_requests ≥ API_LIMITS.requests_per_day then
    (usage, false, msg_requests_per_day)
  else if usage.minute_tokens + estimated_tokens > API_LIMITS.tokens_per_minute then
    (usage, false, msg_tokens_per_minute)
  else if usage.daily_tokens + estimated_tokens > API_LIMITS.tokens_per_day then
    (usage, false, msg_tokens_per_day)
  else if estimated_tokens > API_LIMITS.per_request_limit then
    (usage, false, msg_request_too_large estimated_tokens)
  else
    (usage, true, "OK")

/-- Embeds `update_usage_tracking` (lines 82-100): add `tokens_used` to both
token counters, add 1 to both request counters, append a history entry, then
keep only the last 50 entries (`usage_history[-50:]`, i.e. drop from the
front down to 50). -/
def update_usage_tracking (now : Clock) (tokens_used : Int)
    (usage : UsageState) : UsageState :=
  let usage :=
    { usage with
        daily_tokens := usage.daily_tokens + tokens_used
        daily_requests := usage.daily_requests + 1
        minute_tokens := usage.minute_tokens + tokens_used
        minute_requests := usage.minute_requests + 1 }
  let hist := usage.usage_history ++ [⟨now.isoTimestamp, tokens_used⟩]
  let hist := if hist.length > 50 then hist.drop (hist.length - 50) else hist
  { usage with usage_history := hist }

/-- Embeds `estimate_tokens_from_text` (lines 102-104): `len(text) // 4`. -/
def estimate_tokens_from_text (text : String) : Nat :=
  text.length / 4

/-! ### Helper lemmas shared by the claim theorems -/

/-- When both stored reset keys already match the clock, the lazy reset
takes neither branch and returns the state untouched. -/
theorem reset_of_match (now : Clock) (u : UsageState)
    (hd : u.last_daily_reset = now.dayKey)
    (hm : u.last_minute_reset = now.minuteKey) :
    reset_usage_counters now u = u := by
  simp [reset_usage_counters, hd, hm]

/-- After the lazy reset, both stored keys equal the clock's keys. -/
theorem reset_keys (now : Clock) (u : UsageState) :
    (reset_usage_counters now u).last_daily_reset = now.dayKey ∧
      (reset_usage_counters now u).last_minute_reset = now.minuteKey := by
  simp only [reset_usage_counters]
  split_ifs <;> simp_all

/-- The state component returned by `check_rate_limits` is exactly the
lazily reset state, in every branch. -/
theorem check_rate_limits_fst (now : Clock) (u : UsageState) (est : Int) :
    (check_rate_limits now u est).1 = reset_usage_counters now u := by
  simp only [check_rate_limits]
  split_ifs <;> rfl

/-- Python's `hist[-50:]` guarded by `len(hist) > 50` is `List.rtake _ 50`
unconditionally. -/
theorem truncate_eq_rtake (l : List HistoryEntry) :
    (if l.length > 50 then l.drop (l.length - 50) else l) = l.rtake 50 := by
  by_cases h : l.length > 50
  · simp [h, List.rtake]
  · have h0 : l.length - 50 = 0 := by omega
    simp [h, List.rtake, h0]

/-! ### Claim theorems -/

/-- C5: `estimate_tokens_from_text` is the pure function
`floor(length(text)/4)`, and on the empty string it returns 0. -/
theorem estimate_tokens_spec (text : String) :
    estimate_tokens_from_text text = text.length / 4 ∧
      estimate_tokens_from_text "" = 0 :=
  ⟨rfl, rfl⟩

/-- C6: when the clock's minute key and day key both equal the stored keys,
`reset_usage_counters` leaves the state unchanged; moreover running it
twice with the same clock equals running it once, so it is idempotent
within a single minute/day window. -/
theorem reset_usage_counters_noop_idem (now : Clock) (u : UsageState)
    (hd : u.last_daily_reset = now.dayKey)
    (hm : u.last_minute_reset = now.minuteKey) :
    reset_usage_counters now u = u ∧
      reset_usage_counters now (reset_usage_counters now u) =
        reset_usage_counters now u :=
  ⟨reset_of_match now u hd hm,
    reset_of_match now _ (reset_keys now u).1 (reset_keys now u).2⟩

/-- Witness for C6 at a concrete fresh state whose stored keys match the
clock. -/
theorem reset_usage_counters_noop_idem_witness :
    reset_usage_counters ⟨"2025-01-01", "2025-01-01 00:00", "t"⟩
        (init_session_state ⟨"2025-01-01", "2025-01-01 00:00", "t"⟩) =
      init_session_state ⟨"2025-01-01", "2025-01-01 00:00", "t"⟩ :=
  (reset_usage_counters_noop_idem _ _ rfl rfl).1

/-- C9: `check_rate_limits` mutates state only through the initial lazy
reset: when both stored keys match the clock, the state component it
returns is the input state unchanged, whatever the admission outcome. -/
theorem check_rate_limits_frame (now : Clock) (u : UsageState) (est : Int)
    (hd : u.last_daily_reset = now.dayKey)
    (hm : u.last_minute_reset = now.minuteKey) :
    (check_rate_limits now u est).1 = u := by
  rw [check_rate_limits_fst, reset_of_match now u hd hm]

/-- Witness for C9 at a concrete matching state and a concrete estimate. -/
theorem check_rate_limits_frame_witness :
    (check_rate_limits ⟨"2025-01-01", "2025-01-01 00:00", "t"⟩
        (init_session_state ⟨"2025-01-01", "2025-01-01 00:00", "t"⟩) 700).1 =
      init_session_state ⟨"2025-01-01", "2025-01-01 00:00", "t"⟩ :=
  check_rate_limits_frame _ _ 700 rfl rfl

/-- C2: `update_usage_tracking` adds `tokens_used` to both token counters,
adds 1 to both request counters, appends a `{now, tokens_used}` entry and
truncates the history to the most recent 50 entries — unconditionally, for
every state and every token count: there is no rejecting branch. -/
theorem update_usage_tracking_effect (now : Clock) (t : Int) (u : UsageState) :
    update_usage_tracking now t u =
      { u with
          daily_tokens := u.daily_tokens + t
          daily_requests := u.daily_requests + 1
          minute_tokens := u.minute_tokens + t
          minute_requests := u.minute_requests + 1
          usage_history :=
            (u.usage_history ++ [HistoryEntry.mk now.isoTimestamp t]).rtake 50 } := by
  simp only [update_usage_tracking]
  rw [truncate_eq_rtake]

/-- C7: `update_usage_tracking` never decreases any counter when the
recorded token count is non-negative. -/
theorem update_usage_tracking_monotone (now : Clock) (t : Int)
    (u : UsageState) (h : 0 ≤ t) :
    u.daily_tokens ≤ (update_usage_tracking now t u).daily_tokens ∧
      u.daily_requests ≤ (update_usage_tracking now t u).daily_requests ∧
      u.minute_tokens ≤ (update_usage_tracking now t u).minute_tokens ∧
      u.minute_requests ≤ (update_usage_tracking now t u).minute_requests := by
  simp [update_usage_tracking]
  omega

/-- Witness for C7 at a concrete state and token count. -/
theorem update_usage_tracking_monotone_witness :
    (0 : Int) ≤ 5 ∧
      ((init_session_state ⟨"d", "m", "t"⟩).daily_tokens ≤
          (update_usage_tracking ⟨"d", "m", "t2"⟩ 5
            (init_session_state ⟨"d", "m", "t"⟩)).daily_tokens ∧
        (init_session_state ⟨"d", "m", "t"⟩).daily_requests ≤
          (update_usage_tracking ⟨"d", "m", "t2"⟩ 5
            (init_session_state ⟨"d", "m", "t"⟩)).daily_requests ∧
        (init_session_state ⟨"d", "m", "t"⟩).minute_tokens ≤
          (update_usage_tracking ⟨"d", "m", "t2"⟩ 5
            (init_session_state ⟨"d", "m", "t"⟩)).minute_tokens ∧
        (init_session_state ⟨"d", "m", "t"⟩).minute_requests ≤
          (update_usage_tracking ⟨"d", "m", "t2"⟩ 5
            (init_session_state ⟨"d", "m", "t"⟩)).minute_requests) :=
  ⟨by decide, update_usage_tracking_monotone _ 5 _ (by decide)⟩

/-- Specification-side admission description (a second definition written
from the spec's words, for the refinement claim about `check_rate_limits`):
the five rejection conditions in the documented order, each paired with the
reason it reports. -/
def spec_conditions (u : UsageState) (est : Int) : List (Bool × String) :=
  [(decide (u.minute_requests ≥ API_LIMITS.requests_per_minute),
      msg_requests_per_minute),
   (decide (u.daily_requests ≥ API_LIMITS.requests_per_day),
      msg_requests_per_day),
   (decide (u.minute_tokens + est > API_LIMITS.tokens_per_minute),
      msg_tokens_per_minute),
   (decide (u.daily_tokens + est > API_LIMITS.tokens_per_day),
      msg_tokens_per_day),
   (decide (est > API_LIMITS.per_request_limit),
      msg_request_too_large est)]

/-- Specification-side admission outcome: the reason attached to the first
violated condition of `spec_conditions`, if any. -/
def spec_first_violation (u : UsageState) (est : Int) : Option String :=
  ((spec_conditions u est).find? (fun c => c.1)).map (fun c => c.2)

/-- C1: after the lazy reset, `check_rate_limits` returns the reason of the
first violated condition among the five documented ones in their documented
order, rejecting, and admits with reason "OK" when none is violated; in
particular a reset state violating both the per-minute request check and
the per-minute token check reports the per-minute request reason. -/
theorem check_rate_limits_order (now : Clock) (usage : UsageState) (est : Int) :
    check_rate_limits now usage est =
      (reset_usage_counters now usage,
        match spec_first_violation (reset_usage_counters now usage) est with
        | none => (true, "OK")
        | some r => (false, r)) ∧
    ((reset_usage_counters now usage).minute_requests ≥
        API_LIMITS.requests_per_minute →
      (reset_usage_counters now usage).minute_tokens + est >
        API_LIMITS.tokens_per_minute →
      (check_rate_limits now usage est).2 = (false, msg_requests_per_minute)) := by
  constructor
  · simp only [check_rate_limits]
    split_ifs <;> simp_all [spec_first_violation, spec_conditions]
  · intro h1 _
    simp only [check_rate_limits]
    rw [if_pos h1]

/-- Witness for C1: a concrete state at its stored minute/day whose counters
violate both the per-minute request cap and the per-minute token cap; the
reported reason is the per-minute request one. -/
theorem check_rate_limits_order_witness :
    (reset_usage_counters ⟨"d", "m", "t"⟩
        ⟨0, 0, "d", 29999, 30, "m", []⟩).minute_requests ≥
        API_LIMITS.requests_per_minute ∧
      (reset_usage_counters ⟨"d", "m", "t"⟩
          ⟨0, 0, "d", 29999, 30, "m", []⟩).minute_tokens + 100 >
        API_LIMITS.tokens_per_minute ∧
      (check_rate_limits ⟨"d", "m", "t"⟩
          ⟨0, 0, "d", 29999, 30, "m", []⟩ 100).2 =
        (false, msg_requests_per_minute) :=
  ⟨by decide, by decide,
    (check_rate_limits_order ⟨"d", "m", "t"⟩
        ⟨0, 0, "d", 29999, 30, "m", []⟩ 100).2 (by decide) (by decide)⟩

/-- C3: rolling into a new minute within the same day zeroes only the
minute counters and updates the minute key, leaving the daily fields and
the history unchanged; rolling into a new day zeroes the daily counters and
updates the day key, leaving the history unchanged and touching the minute
fields exactly when the minute has also rolled. -/
theorem reset_usage_counters_roll (now : Clock) (u : UsageState) :
    (u.last_daily_reset = now.dayKey → u.last_minute_reset ≠ now.minuteKey →
      reset_usage_counters now u =
        { u with minute_tokens := 0, minute_requests := 0,
                 last_minute_reset := now.minuteKey }) ∧
    (u.last_daily_reset ≠ now.dayKey →
      ((reset_usage_counters now u).daily_tokens = 0 ∧
        (reset_usage_counters now u).daily_requests = 0 ∧
        (reset_usage_counters now u).last_daily_reset = now.dayKey ∧
        (reset_usage_counters now u).usage_history = u.usage_history ∧
        (u.last_minute_reset = now.minuteKey →
          (reset_usage_counters now u).minute_tokens = u.minute_tokens ∧
            (reset_usage_counters now u).minute_requests = u.minute_requests ∧
            (reset_usage_counters now u).last_minute_reset =
              u.last_minute_reset) ∧
        (u.last_minute_reset ≠ now.minuteKey →
          (reset_usage_counters now u).minute_tokens = 0 ∧
            (reset_usage_counters now u).minute_requests = 0 ∧
            (reset_usage_counters now u).last_minute_reset =
              now.minuteKey))) := by
  constructor
  · intro hd hm
    simp [reset_usage_counters, hd, hm]
  · intro hd
    by_cases hm : u.last_minute_reset = now.minuteKey <;>
      simp [reset_usage_counters, hd, hm]

/-- Witness for C3, in two concrete instances: a minute roll within the
same day, and a day roll with an unchanged minute key component of the
stored state. -/
theorem reset_usage_counters_roll_witness :
    (("d" : String) = "d" ∧ ("m0" : String) ≠ "m1" ∧
      reset_usage_counters ⟨"d", "m1", "t"⟩ ⟨7, 2, "d", 9, 3, "m0", []⟩ =
        ⟨7, 2, "d", 0, 0, "m1", []⟩) ∧
      (("d0" : String) ≠ "d1" ∧
        (reset_usage_counters ⟨"d1", "m1", "t"⟩
            ⟨7, 2, "d0", 9, 3, "m0", []⟩).daily_tokens = 0 ∧
        (reset_usage_counters ⟨"d1", "m1", "t"⟩
            ⟨7, 2, "d0", 9, 3, "m0", []⟩).usage_history = []) := by
  refine ⟨⟨rfl, by decide, ?_⟩, by decide, ?_, ?_⟩
  · exact (reset_usage_counters_roll ⟨"d", "m1", "t"⟩
      ⟨7, 2, "d", 9, 3, "m0", []⟩).1 rfl (by decide)
  · exact ((reset_usage_counters_roll ⟨"d1", "m1", "t"⟩
      ⟨7, 2, "d0", 9, 3, "m0", []⟩).2 (by decide)).1
  · have h := ((reset_usage_counters_roll ⟨"d1", "m1", "t"⟩
      ⟨7, 2, "d0", 9, 3, "m0", []⟩).2 (by decide)).2.2.2.1
    exact h

/-- A sequence of `update_usage_tracking` calls, each with its own clock
reading and token count, folded over a starting state.  This formalises
"any sequence of N recordUsage calls" in the history-bound claim. -/
def record_trace (calls : List (Clock × Int)) (u : UsageState) : UsageState :=
  calls.foldl (fun s c => update_usage_tracking c.1 c.2 s) u

/-- One recording step takes the history length to `min 50 (previous + 1)`. -/
theorem update_history_length (now : Clock) (t : Int) (u : UsageState) :
    (update_usage_tracking now t u).usage_history.length =
      min 50 (u.usage_history.length + 1) := by
  simp only [update_usage_tracking]
  split_ifs with h
  · simp_all
    omega
  · simp_all

/-- Starting within the 50-entry bound, a trace of recordings has history
length `min 50 (start + number of recordings)`. -/
theorem record_trace_history_length (calls : List (Clock × Int))
    (u : UsageState) (h : u.usage_history.length ≤ 50) :
    (record_trace calls u).usage_history.length =
      min 50 (u.usage_history.length + calls.length) := by
  induction calls generalizing u with
  | nil => simp [record_trace]; omega
  | cons c cs ih =>
    have h1 := update_history_length c.1 c.2 u
    have h2 : (update_usage_tracking c.1 c.2 u).usage_history.length ≤ 50 := by
      omega
    have h3 := ih (update_usage_tracking c.1 c.2 u) h2
    simp only [record_trace, List.foldl_cons] at h3 ⊢
    rw [h3, h1]
    simp only [List.length_cons]
    omega

/-- C4: recording takes the history length to `min 50 (previous + 1)` (so
it never exceeds 50); at the bound the oldest entry is evicted and the 50
most recent survive in order; the reset and the check leave the history
untouched; and a trace of N recordings from the fresh state yields history
length `min 50 N`. -/
theorem history_bound (now : Clock) (t : Int) (u : UsageState) (est : Int)
    (calls : List (Clock × Int)) (c0 : Clock) :
    (update_usage_tracking now t u).usage_history.length =
        min 50 (u.usage_history.length + 1) ∧
      (u.usage_history.length = 50 →
        (update_usage_tracking now t u).usage_history =
          u.usage_history.tail ++ [HistoryEntry.mk now.isoTimestamp t]) ∧
      (reset_usage_counters now u).usage_history = u.usage_history ∧
      (check_rate_limits now u est).1.usage_history = u.usage_history ∧
      (record_trace calls (init_session_state c0)).usage_history.length =
        min 50 calls.length := by
  have hreset : (reset_usage_counters now u).usage_history = u.usage_history := by
    simp only [reset_usage_counters]
    split_ifs <;> rfl
  refine ⟨update_history_length now t u, ?_, hreset, ?_, ?_⟩
  · intro h50
    simp only [update_usage_tracking]
    rw [if_pos (by simp [h50])]
    simp [h50, List.drop_append_eq_append_drop, List.drop_one]
  · rw [check_rate_limits_fst, hreset]
  · rw [record_trace_history_length calls (init_session_state c0)
      (by simp [init_session_state])]
    simp [init_session_state]

/-- Witness for C4 at a concrete full history of 50 entries: the 51st
recording evicts the oldest entry. -/
theorem history_bound_witness :
    (⟨0, 0, "d", 0, 0, "m",
        List.replicate 50 (HistoryEntry.mk "ts" 1)⟩ : UsageState).usage_history.length
        = 50 ∧
      (update_usage_tracking ⟨"d", "m", "t"⟩ 2
          ⟨0, 0, "d", 0, 0, "m",
            List.replicate 50 (HistoryEntry.mk "ts" 1)⟩).usage_history =
        (List.replicate 50 (HistoryEntry.mk "ts" 1)).tail ++
          [HistoryEntry.mk "t" 2] :=
  ⟨by simp,
    (history_bound ⟨"d", "m", "t"⟩ 2
        ⟨0, 0, "d", 0, 0, "m", List.replicate 50 (HistoryEntry.mk "ts" 1)⟩ 0 []
        ⟨"d", "m", "t"⟩).2.1 (by simp)⟩

/-- Field equations for one recording step: both token counters gain
`tokens_used`, both request counters gain 1, and the stored reset keys are
untouched. -/
theorem update_fields (now : Clock) (t : Int) (u : UsageState) :
    (update_usage_tracking now t u).daily_tokens = u.daily_tokens + t ∧
      (update_usage_tracking now t u).daily_requests = u.daily_requests + 1 ∧
      (update_usage_tracking now t u).minute_tokens = u.minute_tokens + t ∧
      (update_usage_tracking now t u).minute_requests = u.minute_requests + 1 ∧
      (update_usage_tracking now t u).last_daily_reset = u.last_daily_reset ∧
      (update_usage_tracking now t u).last_minute_reset = u.last_minute_reset :=
  ⟨rfl, rfl, rfl, rfl, rfl, rfl⟩

/-- Field equations for a recorded trace: the daily counters accumulate the
sum of the recorded amounts and the number of calls, and the stored reset
keys are untouched. -/
theorem record_trace_fields (calls : List (Clock × Int)) (u : UsageState) :
    (record_trace calls u).daily_tokens =
        u.daily_tokens + (calls.map (fun c => c.2)).sum ∧
      (record_trace calls u).daily_requests =
        u.daily_requests + calls.length ∧
      (record_trace calls u).last_daily_reset = u.last_daily_reset ∧
      (record_trace calls u).last_minute_reset = u.last_minute_reset := by
  induction calls generalizing u with
  | nil => simp [record_trace]
  | cons c cs ih =>
    obtain ⟨h1, h2, h3, h4⟩ := ih (update_usage_tracking c.1 c.2 u)
    simp only [record_trace, List.foldl_cons] at h1 h2 h3 h4 ⊢
    refine ⟨?_, ?_, ?_, ?_⟩
    · rw [h1, (update_fields c.1 c.2 u).1]
      simp [List.sum_cons]
      ring
    · rw [h2, (update_fields c.1 c.2 u).2.1]
      simp [List.length_cons]
      ring
    · rw [h3, (update_fields c.1 c.2 u).2.2.2.2.1]
    · rw [h4, (update_fields c.1 c.2 u).2.2.2.2.2]

/-- C8: from a fresh state, record any sequence of amounts summing to
499,900 tokens (fewer than 1000 calls), then check an estimate of 150 from
the same day but a fresh minute: the request is rejected with the daily
token reason, because 499900 + 150 > 500000. -/
theorem check_daily_token_scenario (c0 c1 : Clock) (tokens : List Int)
    (hsum : tokens.sum = 499900)
    (hlen : tokens.length < 1000)
    (hday : c1.dayKey = c0.dayKey)
    (hmin : c1.minuteKey ≠ c0.minuteKey) :
    (check_rate_limits c1
        (record_trace (tokens.map (fun t => (c0, t)))
          (init_session_state c0)) 150).2 =
      (false, msg_tokens_per_day) := by
  obtain ⟨h1, h2, h3, h4⟩ :=
    record_trace_fields (tokens.map (fun t => (c0, t))) (init_session_state c0)
  set u := record_trace (tokens.map (fun t => (c0, t))) (init_session_state c0)
    with hu
  simp only [init_session_state, List.length_map] at h2 h3 h4
  simp only [init_session_state, List.map_map, Function.comp_def] at h1
  simp at h1
  have hdt : u.daily_tokens = 499900 := by
    rw [h1, hsum]
  have hdr : u.daily_requests < 1000 := by
    rw [h2]
    omega
  have hreset : reset_usage_counters c1 u =
      { u with minute_tokens := 0, minute_requests := 0,
               last_minute_reset := c1.minuteKey } := by
    simp [reset_usage_counters, h3, h4, hday, hmin.symm]
  simp only [check_rate_limits]
  rw [hreset]
  split_ifs with g1 g2 g3 g4 g5
  · exfalso
    simp [API_LIMITS] at g1
  · exfalso
    simp [API_LIMITS] at g2
    omega
  · exfalso
    simp [API_LIMITS] at g3
  · rfl
  · exfalso
    simp [API_LIMITS] at g4
    omega
  · exfalso
    simp [API_LIMITS] at g4
    omega

/-- Witness for C8: two concrete recordings of 400,000 and 99,900 tokens at
minute "00:00", then a check of 150 at minute "00:01" of the same day. -/
theorem check_daily_token_scenario_witness :
    ([(400000 : Int), 99900].sum = 499900 ∧
        ([(400000 : Int), 99900].length < 1000) ∧
        (⟨"2025-01-01", "2025-01-01 00:01", "t1"⟩ : Clock).dayKey =
          (⟨"2025-01-01", "2025-01-01 00:00", "t0"⟩ : Clock).dayKey ∧
        (⟨"2025-01-01", "2025-01-01 00:01", "t1"⟩ : Clock).minuteKey ≠
          (⟨"2025-01-01", "2025-01-01 00:00", "t0"⟩ : Clock).minuteKey) ∧
      (check_rate_limits ⟨"2025-01-01", "2025-01-01 00:01", "t1"⟩
          (record_trace
            ([(400000 : Int), 99900].map
              (fun t => (⟨"2025-01-01", "2025-01-01 00:00", "t0"⟩, t)))
            (init_session_state ⟨"2025-01-01", "2025-01-01 00:00", "t0"⟩))
          150).2 =
        (false, msg_tokens_per_day) :=
  ⟨⟨by decide, by decide, rfl, by decide⟩,
    check_daily_token_scenario ⟨"2025-01-01", "2025-01-01 00:00", "t0"⟩
      ⟨"2025-01-01", "2025-01-01 00:01", "t1"⟩ [400000, 99900]
      (by decide) (by decide) rfl (by decide)⟩

/-- C10: calling `check_rate_limits` without an estimate argument is the
same call as with the explicit estimate 500, and under matching keys with
request headroom the token conditions of the default call are decided
exactly by the thresholds at 500 estimated tokens. -/
theorem check_rate_limits_default (now : Clock) (u : UsageState) :
    check_rate_limits now u = check_rate_limits now u 500 ∧
      (u.last_daily_reset = now.dayKey → u.last_minute_reset = now.minuteKey →
        u.minute_requests < API_LIMITS.requests_per_minute →
        u.daily_requests < API_LIMITS.requests_per_day →
        ((API_LIMITS.tokens_per_minute < u.minute_tokens + 500 →
            (check_rate_limits now u).2 = (false, msg_tokens_per_minute)) ∧
          (u.minute_tokens + 500 ≤ API_LIMITS.tokens_per_minute →
            API_LIMITS.tokens_per_day < u.daily_tokens + 500 →
            (check_rate_limits now u).2 = (false, msg_tokens_per_day)) ∧
          (u.minute_tokens + 500 ≤ API_LIMITS.tokens_per_minute →
            u.daily_tokens + 500 ≤ API_LIMITS.tokens_per_day →
            (check_rate_limits now u).2 = (true, "OK")))) := by
  refine ⟨rfl, ?_⟩
  intro hd hm hmr hdr
  have hreset := reset_of_match now u hd hm
  refine ⟨?_, ?_, ?_⟩ <;> intros <;>
    (simp only [check_rate_limits]; rw [hreset]; split_ifs) <;>
      first
        | rfl
        | (exfalso; simp_all [API_LIMITS]; try omega)

/-- Witness for C10: a concrete matching state with 29,501 minute tokens;
the default call rejects on the per-minute token cap because
29501 + 500 > 30000. -/
theorem check_rate_limits_default_witness :
    ((⟨0, 0, "d", 29501, 0, "m", []⟩ : UsageState).last_daily_reset =
        (⟨"d", "m", "t"⟩ : Clock).dayKey ∧
      (⟨0, 0, "d", 29501, 0, "m", []⟩ : UsageState).last_minute_reset =
        (⟨"d", "m", "t"⟩ : Clock).minuteKey ∧
      (⟨0, 0, "d", 29501, 0, "m", []⟩ : UsageState).minute_requests <
        API_LIMITS.requests_per_minute ∧
      (⟨0, 0, "d", 29501, 0, "m", []⟩ : UsageState).daily_requests <
        API_LIMITS.requests_per_day ∧
      API_LIMITS.tokens_per_minute <
        (⟨0, 0, "d", 29501, 0, "m", []⟩ : UsageState).minute_tokens + 500) ∧
      (check_rate_limits ⟨"d", "m", "t"⟩
          ⟨0, 0, "d", 29501, 0, "m", []⟩).2 =
        (false, msg_tokens_per_minute) :=
  ⟨⟨rfl, rfl, by decide, by decide, by decide⟩,
    ((check_rate_limits_default ⟨"d", "m", "t"⟩
        ⟨0, 0, "d", 29501, 0, "m", []⟩).2 rfl rfl (by decide)
        (by decide)).1 (by decide)⟩
